import Mathlib

/-!
Shallow embedding of the `agent-template` chat application.

The embedding covers the repository-authored logic:
* the three tool handlers (`manage_todo`, `manage_contact`, `manage_specification`)
  from `src/app/api/chat/route.ts`,
* the agent definitions (static configuration),
* the response shaper and HTTP handler `POST` from `src/app/api/chat/route.ts`,
* the chat page's client-side state update (`handleSubmit`): message bubbles and
  the categorized record lists.

JavaScript objects with optional/nullable fields are modelled with `Option`;
JavaScript truthiness on strings (`if (s)`, `s || d`) is modelled explicitly;
reads of the ambient clock (`Date.now()`, `new Date().toLocaleDateString()`)
are modelled by threading an explicit `JsClock` value, so that "two executions"
of a handler are two applications at possibly different clock readings.
-/

set_option linter.unusedVariables false

namespace AgentTemplate

/-- Rendering of a possibly-nullish string field inside a JS template literal:
a present string renders as itself, a nullish field renders as the literal
text "null". -/
def jsStr : Option String → String
  | some s => s
  | none => "null"

/-- JavaScript `x || d` on an optional string field: nullish or empty string
falls back to the default. -/
def jsOr : Option String → String → String
  | some s, d => if s = "" then d else s
  | none, d => d

/-- JavaScript `s || d` on a plain string: empty string falls back. -/
def jsOrS (s d : String) : String :=
  if s = "" then d else s

/-- JavaScript truthiness of an optional string field (`if (x)`). -/
def truthyS : Option String → Bool
  | some s => s != ""
  | none => false

/-- The ambient clock readings a handler or the UI may take during one
execution: `Date.now()` (milliseconds) and `new Date().toLocaleDateString()`. -/
structure JsClock where
  nowMs : Nat
  localeDate : String
deriving DecidableEq, Repr

/-- The union of all `data` payload shapes produced by the three tool
handlers; each JS object field becomes an optional field, `none` meaning the
field is absent from the object. -/
structure ToolData where
  title : Option String := none
  description : Option String := none
  id : Option String := none
  todos : Option (List String) := none
  completedId : Option String := none
  contactName : Option String := none
  details : Option String := none
  meetingTitle : Option String := none
  datetime : Option String := none
  reminder : Option String := none
  schedule : Option (List String) := none
  type : Option String := none
  content : Option String := none
  requirement : Option String := none
  updates : Option String := none
  reviewed : Option String := none
deriving DecidableEq, Repr

/-- A tool handler's return value (`ToolOutcome` in the spec): `data` and
`showToast` are absent on some branches. -/
structure ToolOutcome where
  success : Bool
  message : String
  data : Option ToolData := none
  showToast : Option Bool := none
  speaker : String
deriving DecidableEq, Repr

/-- Arguments of `todoManagerTool.execute`; `action` is kept as a raw string
so that the handler's `default` branch is reachable. -/
structure TodoArgs where
  action : String
  title : Option String := none
  description : Option String := none
  id : Option String := none
deriving DecidableEq, Repr

/-- Arguments of `contactManagementTool.execute`. -/
structure ContactArgs where
  action : String
  name : Option String := none
  details : Option String := none
  datetime : Option String := none
deriving DecidableEq, Repr

/-- Arguments of `specificationTool.execute`. -/
structure SpecArgs where
  action : String
  title : Option String := none
  content : Option String := none
  type : Option String := none
deriving DecidableEq, Repr

/-- `todoManagerTool.execute` from `src/app/api/chat/route.ts`. The `create`
branch reads `Date.now()` for the generated id. -/
def todoManagerExecute (a : TodoArgs) (clock : JsClock) : ToolOutcome :=
  if a.action = "create" then
    { success := true
      message := "TODO「" ++ jsStr a.title ++ "」を作成しました！"
      data := some { title := a.title, description := a.description,
                     id := some (toString clock.nowMs) }
      showToast := some true
      speaker := "TODO管理係" }
  else if a.action = "list" then
    { success := true
      message := "現在のTODOリストを確認しています..."
      data := some { todos := some [] }
      speaker := "TODO管理係" }
  else if a.action = "complete" then
    { success := true
      message := "TODO「" ++ jsStr a.id ++ "」を完了にしました！"
      data := some { completedId := a.id }
      speaker := "TODO管理係" }
  else
    { success := false
      message := "不明なアクションです"
      speaker := "TODO管理係" }

/-- `contactManagementTool.execute` from `src/app/api/chat/route.ts`. No
branch reads the clock. -/
def contactManagementExecute (a : ContactArgs) (clock : JsClock) : ToolOutcome :=
  if a.action = "add_contact" then
    { success := true
      message := "連絡先「" ++ jsStr a.name ++ "」を追加しました！\n詳細: " ++
                 jsOr a.details "詳細なし"
      data := some { contactName := a.name, details := a.details }
      speaker := "連絡管理係"
      showToast := some true }
  else if a.action = "schedule_meeting" then
    { success := true
      message := "会議「" ++ jsStr a.name ++ "」をスケジュールしました！\n日時: " ++
                 jsStr a.datetime ++ "\n詳細: " ++ jsOr a.details "詳細なし"
      data := some { meetingTitle := a.name, datetime := a.datetime,
                     details := a.details }
      speaker := "連絡管理係"
      showToast := some true }
  else if a.action = "send_reminder" then
    { success := true
      message := "リマインダーを送信しました: " ++ jsStr a.details
      data := some { reminder := a.details }
      speaker := "連絡管理係"
      showToast := some true }
  else if a.action = "check_schedule" then
    { success := true
      message := "本日のスケジュールを確認しています...\n現在、予定されている会議はありません。"
      data := some { schedule := some [] }
      speaker := "連絡管理係" }
  else
    { success := false
      message := "不明なアクションです"
      speaker := "連絡管理係" }

/-- The default Markdown body synthesized by the `create_spec` branch when
`content` is falsy: fixed template interpolating the title and the current
locale date. -/
def specDefaultMarkdown (title : Option String) (localeDate : String) : String :=
  "# " ++ jsStr title ++ "\n\n## 概要\n" ++ jsStr title ++
  "の仕様書です。\n\n## 要件\n- 機能要件を記載してください\n- 非機能要件を記載してください\n\n" ++
  "## 設計\n### アーキテクチャ\n- システム構成を記載\n\n### データ構造\n- データモデルを記載\n\n" ++
  "## 実装方針\n- 開発方針\n- 技術選定\n\n## テスト計画\n- テスト方針\n- テストケース\n\n" ++
  "---\n*作成日: " ++ localeDate ++ "*"

/-- The Markdown template synthesized by the `generate_template` branch,
interpolating the document type and the current locale date. -/
def specTemplateMarkdown (type : Option String) (localeDate : String) : String :=
  "# " ++ jsStr type ++ "仕様書テンプレート\n\n## 1. 概要\n" ++ jsStr type ++
  "に関する仕様書のテンプレートです。\n\n## 2. 目的\n- この仕様書の目的を記載\n- 対象範囲を明確にする\n\n" ++
  "## 3. 要件定義\n### 3.1 機能要件\n- 必要な機能をリストアップ\n- 各機能の詳細説明\n\n" ++
  "### 3.2 非機能要件\n- パフォーマンス要件\n- セキュリティ要件\n- 可用性要件\n\n" ++
  "## 4. システム設計\n### 4.1 アーキテクチャ\n```\n[アーキテクチャ図をここに記載]\n```\n\n" ++
  "### 4.2 データ設計\n```json\n\x7b\n  \"example\": \"データ構造の例\"\n\x7d\n```\n\n" ++
  "## 5. インターフェース仕様\n### 5.1 API仕様\n- エンドポイント一覧\n- リクエスト/レスポンス仕様\n\n" ++
  "### 5.2 UI仕様\n- 画面設計\n- 操作フロー\n\n## 6. 実装方針\n- 開発言語・フレームワーク\n- 開発環境\n- デプロイ方針\n\n" ++
  "## 7. テスト計画\n### 7.1 テスト戦略\n- ユニットテスト\n- 統合テスト\n- システムテスト\n\n" ++
  "### 7.2 テストケース\n| No | テスト項目 | 期待結果 |\n|----|-----------|----------|\n" ++
  "| 1  | 例1       | 結果1    |\n| 2  | 例2       | 結果2    |\n\n" ++
  "## 8. 運用・保守\n- 監視項目\n- 保守方針\n- 障害対応手順\n\n---\n*テンプレート作成日: " ++
  localeDate ++ "*"

/-- `specificationTool.execute` from `src/app/api/chat/route.ts`. The
`create_spec` branch (when `content` is falsy) and the `generate_template`
branch read `new Date().toLocaleDateString()`. -/
def specificationExecute (a : SpecArgs) (clock : JsClock) : ToolOutcome :=
  if a.action = "create_spec" then
    let markdownContent := jsOr a.content (specDefaultMarkdown a.title clock.localeDate)
    { success := true
      message := "仕様書「" ++ jsStr a.title ++ "」を作成しました！\nタイプ: " ++
                 jsOr a.type "未指定" ++ "\nマークダウン形式で構造化されています。"
      data := some { title := a.title, type := a.type, content := some markdownContent }
      speaker := "仕様書管理係"
      showToast := some true }
  else if a.action = "update_requirement" then
    { success := true
      message := "要件「" ++ jsStr a.title ++ "」を更新しました！\n更新内容: " ++
                 jsStr a.content
      data := some { requirement := a.title, updates := a.content }
      speaker := "仕様書管理係"
      showToast := some true }
  else if a.action = "review_doc" then
    { success := true
      message := "ドキュメント「" ++ jsStr a.title ++ "」をレビューしています...\n現在の仕様書は適切に管理されています。"
      data := some { reviewed := a.title }
      speaker := "仕様書管理係" }
  else if a.action = "generate_template" then
    let templateContent := specTemplateMarkdown a.type clock.localeDate
    { success := true
      message := jsStr a.type ++ "仕様書のテンプレートを生成しました！\nマークダウン形式の詳細なテンプレートです。"
      data := some { title := some (jsStr a.type ++ "仕様書テンプレート"), type := a.type,
                     content := some templateContent }
      speaker := "仕様書管理係"
      showToast := some true }
  else
    { success := false
      message := "不明なアクションです"
      speaker := "仕様書管理係" }

/-- A static agent definition (`new Agent({...})`): name, instruction text and
model identifier. Tool and handoff wiring is recorded separately below. -/
structure AgentDef where
  name : String
  instructions : String
  model : String
deriving DecidableEq, Repr

/-- The `TODO管理係` agent definition. -/
def todoManagerAgent : AgentDef :=
  { name := "TODO管理係"
    instructions := "あなたはTODO管理の専門家です。ユーザーのタスク管理をサポートし、効率的な作業環境を提供します。親しみやすい口調で、丁寧にサポートしてください。"
    model := "gpt-4o-mini" }

/-- The `連絡管理係` agent definition. -/
def contactManagementAgent : AgentDef :=
  { name := "連絡管理係"
    instructions := "あなたは連絡管理とコミュニケーションの専門家です。連絡先の管理、会議のスケジューリング、リマインダーの送信など、ユーザーのコミュニケーション業務をサポートします。効率的で丁寧な口調で対応してください。"
    model := "gpt-4o-mini" }

/-- The `仕様書管理係` agent definition. -/
def specificationAgent : AgentDef :=
  { name := "仕様書管理係"
    instructions := "あなたは仕様書管理とドキュメント作成の専門家です。プロジェクトの要件定義、仕様書の作成・更新、ドキュメントのレビューなどをサポートします。技術的で正確な口調で、分かりやすく説明してください。"
    model := "gpt-4o-mini" }

/-- The routing agent (`ボス`) definition. -/
def bossAgent : AgentDef :=
  { name := "ボス"
    instructions := "あなたはチームのボスです。ユーザーの要求を分析し、以下の対応を行います：\n\n**部下への依頼が必要な場合：**\n- TODO管理係: タスク管理、スケジュール、生産性向上が必要な場合\n- 連絡管理係: 連絡先管理、会議スケジューリング、コミュニケーション業務が必要な場合\n- 仕様書管理係: 仕様書作成、要件定義、ドキュメント管理が必要な場合\n\n部下に依頼する場合は「○○係に依頼いたします。」という簡潔な返答をしてからhandoffしてください。\n\n**部下への依頼が不要な場合：**\n一般的な質問や挨拶、雑談などは自分で直接答えてください。\n\n威厳のある丁寧な口調で話してください。"
    model := "gpt-4o-mini" }

/-- The routing agent's handoff targets (`handoffs: [...]`). -/
def bossHandoffs : List AgentDef :=
  [todoManagerAgent, contactManagementAgent, specificationAgent]

/-- One item of the orchestration call's execution trace (`result.newItems`):
a tool-call output (carrying the tool's return value), a message output
(carrying the authoring agent, possibly absent, and the content), or any other
item kind the shaper ignores. -/
inductive TraceItem where
  | toolCallOutputItem (output : ToolOutcome)
  | messageOutputItem (agent : Option AgentDef) (content : String)
  | otherItem
deriving DecidableEq, Repr

/-- An entry of the shaped reply's `agentResponses` list. -/
structure AgentResponse where
  content : String
  speaker : String
deriving DecidableEq, Repr

/-- The orchestration call's result as consumed by the route handler:
`finalOutput`, `lastAgent` (possibly absent — the handler guards on it) and
the trace `newItems`. -/
structure RunResult where
  finalOutput : String
  lastAgent : Option AgentDef
  newItems : List TraceItem
deriving DecidableEq, Repr

/-- The shaped JSON reply (`ChatReply` in the spec). -/
structure ChatReply where
  response : String
  speaker : String
  tools : List ToolOutcome
  agentResponses : List AgentResponse
  handoffOccurred : Bool
deriving DecidableEq, Repr

/-- One iteration of the route handler's `for (const item of result.newItems)`
loop: push a tool-call output onto `toolResults`; push a message output onto
`agentResponses` only when its agent is present and is not the boss. -/
def shapeStep (acc : List ToolOutcome × List AgentResponse) (item : TraceItem) :
    List ToolOutcome × List AgentResponse :=
  match item with
  | .toolCallOutputItem o => (acc.1 ++ [o], acc.2)
  | .messageOutputItem ag c =>
    match ag with
    | some agent =>
      if agent.name ≠ "ボス" then (acc.1, acc.2 ++ [⟨c, agent.name⟩]) else acc
    | none => acc
  | .otherItem => acc

/-- The trace-walking loop of the route handler: one pass over `newItems`,
starting from two empty lists. -/
def shapeLists (items : List TraceItem) : List ToolOutcome × List AgentResponse :=
  items.foldl shapeStep ([], [])

/-- The response shaper of `POST` in `src/app/api/chat/route.ts`: computes
`handoffOccurred` from `lastAgent`, overrides `finalOutput` with a canned
delegation notice when a handoff occurred, and assembles the JSON reply. -/
def shapeReply (res : RunResult) : ChatReply :=
  let lists := shapeLists res.newItems
  let handoffOccurred : Bool :=
    match res.lastAgent with
    | some a => a.name != "ボス"
    | none => false
  let bossResponse : String :=
    match res.lastAgent with
    | some a => if handoffOccurred then a.name ++ "に依頼いたします。" else res.finalOutput
    | none => res.finalOutput
  { response := bossResponse
    speaker := "ボス"
    tools := lists.1
    agentResponses := lists.2
    handoffOccurred := handoffOccurred }

/-- A JSON body returned by the route: either an error object or a shaped
reply. -/
inductive ApiBody where
  | errBody (error : String)
  | okBody (reply : ChatReply)
deriving DecidableEq, Repr

/-- An HTTP response of the route: status code and JSON body. -/
structure ApiResponse where
  status : Nat
  body : ApiBody
deriving DecidableEq, Repr

/-- JavaScript falsiness of the request body's `message` string field
(`if (!message)`): absent or empty. -/
def jsFalsyMessage : Option String → Bool
  | none => true
  | some s => s == ""

/-- The route handler `POST`: validates `message`, invokes the orchestration
call (passed in as `runBoss`, with exceptions modelled by `Except.error`),
shapes the result, and maps any orchestration failure to a 500 response. -/
def POST (message : Option String) (runBoss : String → Except String RunResult) :
    ApiResponse :=
  match message with
  | none => { status := 400, body := .errBody "Message is required" }
  | some m =>
    if m = "" then { status := 400, body := .errBody "Message is required" }
    else
      match runBoss m with
      | .error _ => { status := 500, body := .errBody "Internal server error" }
      | .ok res => { status := 200, body := .okBody (shapeReply res) }

/-- A chat message bubble of the page's `messages` state (`Message` in
`page.tsx`); `timestamp` models the `Date` value by the clock reading. -/
structure UiMessage where
  id : String
  content : String
  isUser : Bool
  timestamp : Nat
  speaker : Option String := none
deriving DecidableEq, Repr

/-- One iteration of `handleSubmit`'s `data.tools.forEach` bubble push: a tool
entry with truthy `message` and `speaker` becomes one appended bubble. The
`agentResponses` list is deliberately not rendered by `handleSubmit` (see the
source comment about duplicates). -/
def buildBotStep (now : Nat) (acc : List UiMessage) (p : Nat × ToolOutcome) :
    List UiMessage :=
  if p.2.message != "" && p.2.speaker != "" then
    acc ++ [{ id := toString (now + p.1 + acc.length + 1)
              content := p.2.message
              isUser := false
              timestamp := now
              speaker := some p.2.speaker }]
  else acc

/-- The bot-side bubbles appended for one reply: the boss bubble, then the
fold of `buildBotStep` over the indexed tools list. -/
def buildBotMessages (now : Nat) (reply : ChatReply) : List UiMessage :=
  let bossMessage : UiMessage :=
    { id := toString (now + 1)
      content := reply.response
      isUser := false
      timestamp := now
      speaker := some (jsOrS reply.speaker "ボス") }
  reply.tools.enum.foldl (buildBotStep now) [bossMessage]

/-- A TODO record of the page's right-pane state. -/
structure TodoItem where
  id : String
  title : String
  description : Option String := none
  completed : Bool
  createdAt : Nat
deriving DecidableEq, Repr

/-- A contact record of the page's right-pane state. -/
structure Contact where
  id : String
  name : String
  details : String
  createdAt : Nat
deriving DecidableEq, Repr

/-- A meeting record of the page's right-pane state. -/
structure Meeting where
  id : String
  title : String
  datetime : String
  details : String
  createdAt : Nat
deriving DecidableEq, Repr

/-- A specification record of the page's right-pane state. -/
structure Specification where
  id : String
  title : String
  type : String
  content : String
  createdAt : Nat
deriving DecidableEq, Repr

/-- The four categorized record lists of the page's right-pane state. -/
structure UiRecords where
  todos : List TodoItem := []
  contacts : List Contact := []
  meetings : List Meeting := []
  specifications : List Specification := []
deriving DecidableEq, Repr

/-- One step of `handleSubmit`'s `data.tools.forEach` record update: the tool
entry is dispatched on its `speaker` label (and the presence of `data`), then
on field presence inside `data`; ids and `createdAt` come from the clock when
the tool did not supply an id. -/
def uiRecordStep (now : Nat) (st : UiRecords) (tool : ToolOutcome) : UiRecords :=
  match tool.data with
  | none => st
  | some d =>
    if tool.speaker = "TODO管理係" then
      if truthyS d.title then
        { st with todos := st.todos ++
            [{ id := jsOr d.id (toString now)
               title := jsStr d.title
               description := d.description
               completed := false
               createdAt := now }] }
      else st
    else if tool.speaker = "連絡管理係" then
      if truthyS d.contactName then
        { st with contacts := st.contacts ++
            [{ id := toString now
               name := jsStr d.contactName
               details := jsOr d.details ""
               createdAt := now }] }
      else if truthyS d.meetingTitle then
        { st with meetings := st.meetings ++
            [{ id := toString now
               title := jsStr d.meetingTitle
               datetime := jsOr d.datetime ""
               details := jsOr d.details ""
               createdAt := now }] }
      else st
    else if tool.speaker = "仕様書管理係" then
      if truthyS d.title then
        { st with specifications := st.specifications ++
            [{ id := toString now
               title := jsStr d.title
               type := jsOr d.type "未分類"
               content := jsOr d.content ""
               createdAt := now }] }
      else st
    else st

/-- The record-categorization pass of `handleSubmit` over a reply's `tools`
list, starting from given current state. -/
def uiCategorize (now : Nat) (st : UiRecords) (tools : List ToolOutcome) : UiRecords :=
  tools.foldl (uiRecordStep now) st

/-- The toast emissions of `handleSubmit`: for each tool entry with a truthy
`showToast`, one toast with the tool's `message`, falling back to a generic
text when the message is falsy. -/
def uiToasts (tools : List ToolOutcome) : List String :=
  tools.foldl
    (fun acc tool =>
      match tool.showToast with
      | some true => acc ++ [jsOrS tool.message "操作が完了しました"]
      | _ => acc)
    []

/-- Specification-side reading of the tools list: exactly the `ToolOutcome`
payloads of the `ToolCallOutput`-tagged trace items, in original order. -/
def toolOutputsOfTrace : List TraceItem → List ToolOutcome
  | [] => []
  | .toolCallOutputItem o :: rest => o :: toolOutputsOfTrace rest
  | .messageOutputItem _ _ :: rest => toolOutputsOfTrace rest
  | .otherItem :: rest => toolOutputsOfTrace rest

/-- Whether a trace item is `ToolCallOutput`-tagged. -/
def isToolCallOutput : TraceItem → Bool
  | .toolCallOutputItem _ => true
  | _ => false

/-- Specification-side reading of the `agentResponses` list: for each
`AgentMessage`-tagged item whose agent is present and differs from the
routing-agent constant, the `{content, speaker}` pair, in original order. -/
def agentMessagesOfTrace : List TraceItem → List AgentResponse
  | [] => []
  | .messageOutputItem (some agent) c :: rest =>
    if agent.name ≠ "ボス" then ⟨c, agent.name⟩ :: agentMessagesOfTrace rest
    else agentMessagesOfTrace rest
  | .messageOutputItem none _ :: rest => agentMessagesOfTrace rest
  | .toolCallOutputItem _ :: rest => agentMessagesOfTrace rest
  | .otherItem :: rest => agentMessagesOfTrace rest

/-- Rewrite the `speaker` field of every tool-call output in a trace, leaving
everything else unchanged; used to state that speakers never gate inclusion in
the tools list. -/
def mapToolSpeaker (f : String → String) : TraceItem → TraceItem
  | .toolCallOutputItem o => .toolCallOutputItem { o with speaker := f o.speaker }
  | item => item

/-- Specification-side reading of one tool entry as a task record: requires
the todo speaker label and a truthy `data.title`. -/
def todoRecOf (now : Nat) (tool : ToolOutcome) : Option TodoItem :=
  match tool.data with
  | some d =>
    if tool.speaker == "TODO管理係" && truthyS d.title then
      some { id := jsOr d.id (toString now)
             title := jsStr d.title
             description := d.description
             completed := false
             createdAt := now }
    else none
  | none => none

/-- Specification-side reading of one tool entry as a contact record:
requires the contact speaker label and a truthy `data.contactName`. -/
def contactRecOf (now : Nat) (tool : ToolOutcome) : Option Contact :=
  match tool.data with
  | some d =>
    if tool.speaker == "連絡管理係" && truthyS d.contactName then
      some { id := toString now
             name := jsStr d.contactName
             details := jsOr d.details ""
             createdAt := now }
    else none
  | none => none

/-- Specification-side reading of one tool entry as a meeting record:
requires the contact speaker label, a falsy `data.contactName` and a truthy
`data.meetingTitle`. -/
def meetingRecOf (now : Nat) (tool : ToolOutcome) : Option Meeting :=
  match tool.data with
  | some d =>
    if tool.speaker == "連絡管理係" && !truthyS d.contactName && truthyS d.meetingTitle then
      some { id := toString now
             title := jsStr d.meetingTitle
             datetime := jsOr d.datetime ""
             details := jsOr d.details ""
             createdAt := now }
    else none
  | none => none

/-- Specification-side reading of one tool entry as a specification record:
requires the specification speaker label and a truthy `data.title`. -/
def specRecOf (now : Nat) (tool : ToolOutcome) : Option Specification :=
  match tool.data with
  | some d =>
    if tool.speaker == "仕様書管理係" && truthyS d.title then
      some { id := toString now
             title := jsStr d.title
             type := jsOr d.type "未分類"
             content := jsOr d.content ""
             createdAt := now }
    else none
  | none => none

/-- The content/speaker projection of the bubbles a tool entry contributes:
one pair when both `message` and `speaker` are truthy, nothing otherwise. -/
def toolBubbleOf (tool : ToolOutcome) : Option (String × Option String) :=
  if tool.message != "" && tool.speaker != "" then
    some (tool.message, some tool.speaker)
  else none

/-- A concrete reply holding one specialist entry in `agentResponses` and no
tools; the UI renders only the boss bubble for it. -/
def c7reply : ChatReply :=
  { response := "x"
    speaker := "ボス"
    tools := []
    agentResponses := [⟨"specialist reply", "TODO管理係"⟩]
    handoffOccurred := true }

/-- A concrete tool entry whose `data` has a `title` field but whose speaker
is the contact label. -/
def c8tool : ToolOutcome :=
  { success := true
    message := "m"
    data := some { title := some "設計書" }
    speaker := "連絡管理係" }

/-! Helper lemmas about the response shaper. -/

theorem shapeLists_foldl_spec (items : List TraceItem)
    (acc : List ToolOutcome × List AgentResponse) :
    items.foldl shapeStep acc
      = (acc.1 ++ toolOutputsOfTrace items, acc.2 ++ agentMessagesOfTrace items) := by
  induction items generalizing acc with
  | nil => simp [toolOutputsOfTrace, agentMessagesOfTrace]
  | cons hd tl ih =>
    cases hd with
    | toolCallOutputItem o =>
      simp [shapeStep, toolOutputsOfTrace, agentMessagesOfTrace, List.filterMap_cons, ih]
    | messageOutputItem ag c =>
      cases ag with
      | none =>
        simp [shapeStep, toolOutputsOfTrace, agentMessagesOfTrace, List.filterMap_cons, ih]
      | some agent =>
        by_cases hb : agent.name = "ボス" <;>
          simp [shapeStep, toolOutputsOfTrace, agentMessagesOfTrace, List.filterMap_cons,
                hb, ih]
    | otherItem =>
      simp [shapeStep, toolOutputsOfTrace, agentMessagesOfTrace, List.filterMap_cons, ih]

theorem shapeLists_spec (items : List TraceItem) :
    shapeLists items = (toolOutputsOfTrace items, agentMessagesOfTrace items) := by
  simpa [shapeLists] using shapeLists_foldl_spec items ([], [])

theorem shapeReply_tools (res : RunResult) :
    (shapeReply res).tools = toolOutputsOfTrace res.newItems := by
  simp [shapeReply, shapeLists_spec]

theorem shapeReply_agentResponses (res : RunResult) :
    (shapeReply res).agentResponses = agentMessagesOfTrace res.newItems := by
  simp [shapeReply, shapeLists_spec]

theorem toolOutputsOfTrace_length (items : List TraceItem) :
    (toolOutputsOfTrace items).length = items.countP isToolCallOutput := by
  induction items with
  | nil => simp [toolOutputsOfTrace]
  | cons hd tl ih =>
    cases hd <;>
      simp [toolOutputsOfTrace, isToolCallOutput, List.filterMap_cons, List.countP_cons,
            ih]

theorem toolOutputsOfTrace_mapSpeaker (f : String → String) (items : List TraceItem) :
    toolOutputsOfTrace (items.map (mapToolSpeaker f))
      = (toolOutputsOfTrace items).map fun o => { o with speaker := f o.speaker } := by
  induction items with
  | nil => simp [toolOutputsOfTrace]
  | cons hd tl ih =>
    cases hd <;> simp [toolOutputsOfTrace, mapToolSpeaker, List.filterMap_cons, ih]

/-! Claim theorems. -/

/-- Claim C1: the shaped reply's `handoffOccurred` is true iff
`lastAgent.name` differs from the routing-agent constant; when true the
response is the canned delegation string built from `lastAgent.name`
(independent of `finalOutput`), and when false the response is `finalOutput`
unchanged. -/
theorem claim1_handoff_flag_and_canned_response (res : RunResult) (a : AgentDef)
    (h : res.lastAgent = some a) :
    ((shapeReply res).handoffOccurred = true ↔ a.name ≠ "ボス")
    ∧ (a.name ≠ "ボス" →
        (shapeReply res).response = a.name ++ "に依頼いたします。"
        ∧ ∀ fo : String,
            (shapeReply { res with finalOutput := fo }).response
              = (shapeReply res).response)
    ∧ (a.name = "ボス" → (shapeReply res).response = res.finalOutput) := by
  by_cases hb : a.name = "ボス" <;> simp [shapeReply, h, hb]

/-- Witness for C1 at a concrete handed-off result. -/
theorem claim1_witness :
    (shapeReply { finalOutput := "raw", lastAgent := some todoManagerAgent,
                  newItems := [] }).response
      = todoManagerAgent.name ++ "に依頼いたします。" :=
  (claim1_handoff_flag_and_canned_response
    { finalOutput := "raw", lastAgent := some todoManagerAgent, newItems := [] }
    todoManagerAgent rfl |>.2.1 (by decide)).1

/-- Claim C2: the tools list consists of exactly the `ToolOutcome` payloads of
the `ToolCallOutput`-tagged trace items in original order, its length equals
the count of such items, and rewriting the outcomes' `speaker` fields only
rewrites the collected outcomes — it never changes which items are included. -/
theorem claim2_tools_order_preserving (res : RunResult) :
    (shapeReply res).tools = toolOutputsOfTrace res.newItems
    ∧ (shapeReply res).tools.length = res.newItems.countP isToolCallOutput
    ∧ ∀ f : String → String,
        (shapeReply { res with newItems := res.newItems.map (mapToolSpeaker f) }).tools
          = (shapeReply res).tools.map fun o => { o with speaker := f o.speaker } := by
  refine ⟨shapeReply_tools res, ?_, ?_⟩
  · rw [shapeReply_tools, toolOutputsOfTrace_length]
  · intro f
    rw [shapeReply_tools, shapeReply_tools]
    exact toolOutputsOfTrace_mapSpeaker f res.newItems

theorem agentMessagesOfTrace_speaker_ne_boss (items : List TraceItem) :
    ∀ e ∈ agentMessagesOfTrace items, e.speaker ≠ "ボス" := by
  induction items with
  | nil => simp [agentMessagesOfTrace]
  | cons hd tl ih =>
    cases hd with
    | toolCallOutputItem o => simpa [agentMessagesOfTrace] using ih
    | otherItem => simpa [agentMessagesOfTrace] using ih
    | messageOutputItem ag c =>
      cases ag with
      | none => simpa [agentMessagesOfTrace] using ih
      | some agent =>
        by_cases hb : agent.name = "ボス"
        · simpa [agentMessagesOfTrace, hb] using ih
        · intro e he
          simp [agentMessagesOfTrace, hb] at he
          rcases he with he | he
          · subst he
            exact hb
          · exact ih e he

/-- Claim C3: `agentResponses` never contains an entry whose speaker is the
routing-agent constant, and it consists exactly of the `{content, speaker}`
pairs of the non-boss agent messages, in order. -/
theorem claim3_agent_responses_exclude_boss (res : RunResult) :
    (∀ e ∈ (shapeReply res).agentResponses, e.speaker ≠ "ボス")
    ∧ (shapeReply res).agentResponses = agentMessagesOfTrace res.newItems := by
  refine ⟨?_, shapeReply_agentResponses res⟩
  intro e he
  rw [shapeReply_agentResponses] at he
  exact agentMessagesOfTrace_speaker_ne_boss res.newItems e he

/-- Witness for C3 at a concrete trace containing one specialist message. -/
theorem claim3_witness :
    (⟨"done", "TODO管理係"⟩ : AgentResponse).speaker ≠ "ボス" :=
  (claim3_agent_responses_exclude_boss
      { finalOutput := "f", lastAgent := some bossAgent,
        newItems := [.messageOutputItem (some todoManagerAgent) "done"] }).1
    ⟨"done", "TODO管理係"⟩ (by decide)

/-- Claim C4: the route answers 400 with `Message is required` exactly when
the message is missing or falsy, in which case the orchestration callback is
never consulted, and an orchestration error yields 500 with
`Internal server error`. -/
theorem claim4_message_validation (message : Option String)
    (runBoss : String → Except String RunResult) :
    (POST message runBoss = { status := 400, body := .errBody "Message is required" }
        ↔ jsFalsyMessage message = true)
    ∧ (jsFalsyMessage message = true →
        ∀ runBoss', POST message runBoss = POST message runBoss')
    ∧ (∀ m e, message = some m → jsFalsyMessage message = false →
        runBoss m = Except.error e →
        POST message runBoss
          = { status := 500, body := .errBody "Internal server error" }) := by
  cases message with
  | none => simp [POST, jsFalsyMessage]
  | some m =>
    by_cases hm : m = ""
    · simp [POST, jsFalsyMessage, hm]
    · cases hrun : runBoss m with
      | error e => simp [POST, jsFalsyMessage, hm, hrun]
      | ok r =>
        refine ⟨?_, ?_, ?_⟩
        · simp [POST, jsFalsyMessage, hm, hrun]
        · intro hfal
          simp [jsFalsyMessage, hm] at hfal
        · intro m1 e hm1 hfal hrun1
          injection hm1 with hm1
          subst hm1
          rw [hrun] at hrun1
          simp at hrun1

/-- Witness for C4: empty message gives 400 regardless of the orchestration
callback; a throwing orchestration call gives 500. -/
theorem claim4_witness :
    POST (some "") (fun _ => Except.error "boom")
        = { status := 400, body := .errBody "Message is required" }
    ∧ POST (some "hi") (fun _ => Except.error "boom")
        = { status := 500, body := .errBody "Internal server error" } :=
  ⟨(claim4_message_validation (some "") (fun _ => Except.error "boom")).1.mpr
      (by decide),
   (claim4_message_validation (some "hi") (fun _ => Except.error "boom")).2.2
      "hi" "boom" rfl (by decide) rfl⟩

/-- Counterexample to C5 as stated: an empty trace does not force
`handoffOccurred = false`; with `lastAgent` a specialist the flag is true. -/
theorem claim5_counterexample :
    ({ finalOutput := "こんにちは", lastAgent := some todoManagerAgent,
       newItems := [] } : RunResult).newItems = []
    ∧ (shapeReply { finalOutput := "こんにちは", lastAgent := some todoManagerAgent,
                    newItems := [] }).handoffOccurred = true := by
  exact ⟨rfl, by decide⟩

/-- Claim C5 (amended): for every result with empty `newItems`, the shaped
reply has empty `tools` and `agentResponses`; additionally, when `lastAgent`
is absent or is the routing agent, `handoffOccurred = false` and
`response = finalOutput`. -/
theorem claim5_empty_trace (res : RunResult) (h : res.newItems = []) :
    (shapeReply res).tools = []
    ∧ (shapeReply res).agentResponses = []
    ∧ (∀ a, res.lastAgent = some a → a.name = "ボス" →
        (shapeReply res).handoffOccurred = false
        ∧ (shapeReply res).response = res.finalOutput)
    ∧ (res.lastAgent = none →
        (shapeReply res).handoffOccurred = false
        ∧ (shapeReply res).response = res.finalOutput) := by
  refine ⟨?_, ?_, ?_, ?_⟩
  · rw [shapeReply_tools, h]; rfl
  · rw [shapeReply_agentResponses, h]; rfl
  · intro a ha hb
    constructor <;> simp [shapeReply, ha, hb]
  · intro ha
    constructor <;> simp [shapeReply, ha]

/-- Witness for C5 (amended) at example scenario 3 of the spec. -/
theorem claim5_witness :
    (shapeReply { finalOutput := "こんにちは", lastAgent := some bossAgent,
                  newItems := [] }).tools = []
    ∧ (shapeReply { finalOutput := "こんにちは", lastAgent := some bossAgent,
                    newItems := [] }).agentResponses = []
    ∧ (shapeReply { finalOutput := "こんにちは", lastAgent := some bossAgent,
                    newItems := [] }).handoffOccurred = false
    ∧ (shapeReply { finalOutput := "こんにちは", lastAgent := some bossAgent,
                    newItems := [] }).response = "こんにちは" := by
  have h := claim5_empty_trace
    { finalOutput := "こんにちは", lastAgent := some bossAgent, newItems := [] } rfl
  exact ⟨h.1, h.2.1, (h.2.2.1 bossAgent rfl rfl).1, (h.2.2.1 bossAgent rfl rfl).2⟩

/-- Claim C10: on every branch, each handler's outcome carries that handler's
single fixed speaker label. -/
theorem claim10_fixed_speaker (c : JsClock) :
    (∀ a : TodoArgs, (todoManagerExecute a c).speaker = "TODO管理係")
    ∧ (∀ a : ContactArgs, (contactManagementExecute a c).speaker = "連絡管理係")
    ∧ (∀ a : SpecArgs, (specificationExecute a c).speaker = "仕様書管理係") := by
  refine ⟨fun a => ?_, fun a => ?_, fun a => ?_⟩
  · unfold todoManagerExecute
    split_ifs <;> rfl
  · unfold contactManagementExecute
    split_ifs <;> rfl
  · unfold specificationExecute
    split_ifs <;> rfl

/-- Counterexample to C6 as stated: the todo handler's create branch embeds
`Date.now()` into the generated id, so two executions with identical action
and field values at different clock readings return different outcomes. -/
theorem claim6_counterexample :
    todoManagerExecute { action := "create", title := some "メモ" }
        { nowMs := 0, localeDate := "2024/1/1" }
      ≠ todoManagerExecute { action := "create", title := some "メモ" }
        { nowMs := 1, localeDate := "2024/1/1" } := by
  decide

/-- Claim C6 (amended): each handler is a deterministic pure function of its
input together with the clock readings it takes: the contact handler ignores
the clock entirely; the todo handler depends on it only through `Date.now()`
and only on its create branch; the specification handler depends on it only
through the locale date and only on its `create_spec` and `generate_template`
branches — in particular, at a fixed date the default Markdown generation is
literally reproducible. -/
theorem claim6_handler_determinism :
    (∀ (a : ContactArgs) (c c' : JsClock),
        contactManagementExecute a c = contactManagementExecute a c')
    ∧ (∀ (a : TodoArgs) (c c' : JsClock), c.nowMs = c'.nowMs →
        todoManagerExecute a c = todoManagerExecute a c')
    ∧ (∀ (a : TodoArgs) (c c' : JsClock), a.action ≠ "create" →
        todoManagerExecute a c = todoManagerExecute a c')
    ∧ (∀ (a : SpecArgs) (c c' : JsClock), c.localeDate = c'.localeDate →
        specificationExecute a c = specificationExecute a c')
    ∧ (∀ (a : SpecArgs) (c c' : JsClock),
        a.action ≠ "create_spec" → a.action ≠ "generate_template" →
        specificationExecute a c = specificationExecute a c') := by
  refine ⟨?_, ?_, ?_, ?_, ?_⟩
  · intro a c c'
    unfold contactManagementExecute
    split_ifs <;> rfl
  · intro a c c' h
    unfold todoManagerExecute
    rw [h]
  · intro a c c' h
    simp [todoManagerExecute, h]
  · intro a c c' h
    unfold specificationExecute
    rw [h]
  · intro a c c' h1 h2
    simp [specificationExecute, h1, h2]

/-- Witness for C6 (amended) at concrete inputs and clock pairs. -/
theorem claim6_witness :
    contactManagementExecute { action := "add_contact", name := some "山田" }
        { nowMs := 0, localeDate := "a" }
      = contactManagementExecute { action := "add_contact", name := some "山田" }
        { nowMs := 9, localeDate := "b" }
    ∧ todoManagerExecute { action := "create", title := some "メモ" }
        { nowMs := 7, localeDate := "a" }
      = todoManagerExecute { action := "create", title := some "メモ" }
        { nowMs := 7, localeDate := "b" }
    ∧ todoManagerExecute { action := "list" } { nowMs := 0, localeDate := "a" }
      = todoManagerExecute { action := "list" } { nowMs := 5, localeDate := "b" }
    ∧ specificationExecute { action := "create_spec", title := some "API" }
        { nowMs := 0, localeDate := "2024/1/1" }
      = specificationExecute { action := "create_spec", title := some "API" }
        { nowMs := 3, localeDate := "2024/1/1" }
    ∧ specificationExecute { action := "review_doc", title := some "API" }
        { nowMs := 0, localeDate := "a" }
      = specificationExecute { action := "review_doc", title := some "API" }
        { nowMs := 3, localeDate := "b" } := by
  have h := claim6_handler_determinism
  exact ⟨h.1 _ _ _, h.2.1 _ _ _ rfl, h.2.2.1 _ _ _ (by decide),
         h.2.2.2.1 _ _ _ rfl, h.2.2.2.2 _ _ _ (by decide) (by decide)⟩

/-- Counterexample to C9 as stated: the unknown-action message is the fixed
Japanese string, not the literal text "unknown action". -/
theorem claim9_counterexample :
    (todoManagerExecute { action := "fly" } { nowMs := 0, localeDate := "" }).message
        = "不明なアクションです"
    ∧ ("不明なアクションです" : String) ≠ "unknown action" :=
  ⟨rfl, by decide⟩

/-- Claim C9 (amended): for every action outside the recognized enumeration,
each handler returns success `false`, the fixed unknown-action message
`不明なアクションです` and its fixed speaker label, with no data and no toast
hint; handlers are total functions, so no exception is possible. -/
theorem claim9_unknown_action (c : JsClock) :
    (∀ a : TodoArgs, a.action ≠ "create" → a.action ≠ "list" →
        a.action ≠ "complete" →
        todoManagerExecute a c
          = { success := false, message := "不明なアクションです", speaker := "TODO管理係" })
    ∧ (∀ a : ContactArgs, a.action ≠ "add_contact" → a.action ≠ "schedule_meeting" →
        a.action ≠ "send_reminder" → a.action ≠ "check_schedule" →
        contactManagementExecute a c
          = { success := false, message := "不明なアクションです", speaker := "連絡管理係" })
    ∧ (∀ a : SpecArgs, a.action ≠ "create_spec" → a.action ≠ "update_requirement" →
        a.action ≠ "review_doc" → a.action ≠ "generate_template" →
        specificationExecute a c
          = { success := false, message := "不明なアクションです", speaker := "仕様書管理係" }) := by
  refine ⟨?_, ?_, ?_⟩
  · intro a h1 h2 h3
    simp [todoManagerExecute, h1, h2, h3]
  · intro a h1 h2 h3 h4
    simp [contactManagementExecute, h1, h2, h3, h4]
  · intro a h1 h2 h3 h4
    simp [specificationExecute, h1, h2, h3, h4]

/-- Witness for C9 (amended) at a concrete unrecognized action. -/
theorem claim9_witness :
    todoManagerExecute { action := "fly" } { nowMs := 0, localeDate := "" }
      = { success := false, message := "不明なアクションです", speaker := "TODO管理係" }
    ∧ contactManagementExecute { action := "fly" } { nowMs := 0, localeDate := "" }
      = { success := false, message := "不明なアクションです", speaker := "連絡管理係" }
    ∧ specificationExecute { action := "fly" } { nowMs := 0, localeDate := "" }
      = { success := false, message := "不明なアクションです", speaker := "仕様書管理係" } := by
  have h := claim9_unknown_action { nowMs := 0, localeDate := "" }
  exact ⟨h.1 _ (by decide) (by decide) (by decide),
         h.2.1 _ (by decide) (by decide) (by decide) (by decide),
         h.2.2 _ (by decide) (by decide) (by decide) (by decide)⟩

theorem buildBot_foldl_spec (now : Nat) (l : List (Nat × ToolOutcome))
    (acc : List UiMessage) :
    ((l.foldl (buildBotStep now) acc).map fun m => (m.content, m.speaker))
      = (acc.map fun m => (m.content, m.speaker))
        ++ l.filterMap fun p => toolBubbleOf p.2 := by
  induction l generalizing acc with
  | nil => simp
  | cons hd tl ih =>
    by_cases h1 : hd.2.message = ""
    · simp [buildBotStep, toolBubbleOf, h1, List.filterMap_cons, ih]
    · by_cases h2 : hd.2.speaker = ""
      · simp [buildBotStep, toolBubbleOf, h1, h2, List.filterMap_cons, ih]
      · simp [buildBotStep, toolBubbleOf, h1, h2, List.filterMap_cons, ih]

theorem filterMap_enumFrom_snd {β : Type} (g : ToolOutcome → Option β) (n : Nat)
    (ts : List ToolOutcome) :
    ((List.enumFrom n ts).filterMap fun p => g p.2) = ts.filterMap g := by
  induction ts generalizing n with
  | nil => rfl
  | cons hd tl ih => simp [List.enumFrom, List.filterMap_cons, ih]

/-- Counterexample to C7 as stated: for a reply whose `agentResponses` holds
one specialist entry and whose tools list is empty, the reducer appends only
the boss response bubble — no bubble is appended for the `agentResponses`
entry. -/
theorem claim7_counterexample :
    c7reply.agentResponses = [⟨"specialist reply", "TODO管理係"⟩]
    ∧ buildBotMessages 0 c7reply
        = [{ id := "1", content := "x", isUser := false, timestamp := 0,
             speaker := some "ボス" }] :=
  ⟨rfl, rfl⟩

/-- Claim C7 (amended): for every reply, the reducer appends the response
bubble first, then exactly one bubble per tool entry whose message and speaker
are truthy (in order, carrying that tool's message and speaker); entries of
`agentResponses` are never appended — the bubbles do not depend on that list
at all. -/
theorem claim7_bubbles (now : Nat) (reply : ChatReply) :
    ((buildBotMessages now reply).map fun m => (m.content, m.speaker))
      = (reply.response, some (jsOrS reply.speaker "ボス"))
          :: reply.tools.filterMap toolBubbleOf
    ∧ ∀ ars, buildBotMessages now { reply with agentResponses := ars }
        = buildBotMessages now reply := by
  constructor
  · unfold buildBotMessages
    rw [show reply.tools.enum = List.enumFrom 0 reply.tools from rfl,
        buildBot_foldl_spec, filterMap_enumFrom_snd]
    simp
  · intro ars
    rfl

theorem uiRecordStep_fields (now : Nat) (st : UiRecords) (tool : ToolOutcome) :
    (uiRecordStep now st tool).todos = st.todos ++ (todoRecOf now tool).toList
    ∧ (uiRecordStep now st tool).contacts
        = st.contacts ++ (contactRecOf now tool).toList
    ∧ (uiRecordStep now st tool).meetings
        = st.meetings ++ (meetingRecOf now tool).toList
    ∧ (uiRecordStep now st tool).specifications
        = st.specifications ++ (specRecOf now tool).toList := by
  unfold uiRecordStep todoRecOf contactRecOf meetingRecOf specRecOf
  rcases hdata : tool.data with _ | d
  · simp
  · by_cases h1 : tool.speaker = "TODO管理係"
    · cases ht : truthyS d.title <;> simp [h1, ht]
    · by_cases h2 : tool.speaker = "連絡管理係"
      · cases hc : truthyS d.contactName <;> cases hm : truthyS d.meetingTitle <;>
          simp [h1, h2, hc, hm]
      · by_cases h3 : tool.speaker = "仕様書管理係"
        · cases ht : truthyS d.title <;> simp [h1, h2, h3, ht]
        · simp [h1, h2, h3]

/-- Counterexample to C8 as stated: a tool entry whose `data` carries a
`title` but whose speaker is the contact label produces no record at all — in
particular no task record — so field presence alone does not decide the
category; the speaker label gates the match. -/
theorem claim8_counterexample :
    truthyS ({ title := some "設計書" } : ToolData).title = true
    ∧ c8tool.data = some { title := some "設計書" }
    ∧ uiCategorize 5 {} [c8tool] = {}
    ∧ (uiCategorize 5 {} [c8tool]).todos = [] :=
  ⟨rfl, rfl, rfl, rfl⟩

/-- Claim C8 (amended): categorization is gated first by the tool's speaker
label and then by field presence: a todo-speaker entry with truthy
`data.title` becomes a task record (reusing a supplied truthy id, else a
generated one), a contact-speaker entry with truthy `data.contactName` a
contact record, a contact-speaker entry with falsy `contactName` and truthy
`meetingTitle` a meeting record, and a specification-speaker entry with
truthy `data.title` a specification record; ids and timestamps are generated
client-side where not supplied. -/
theorem claim8_records (now : Nat) (st : UiRecords) (tools : List ToolOutcome) :
    (uiCategorize now st tools).todos
        = st.todos ++ tools.filterMap (todoRecOf now)
    ∧ (uiCategorize now st tools).contacts
        = st.contacts ++ tools.filterMap (contactRecOf now)
    ∧ (uiCategorize now st tools).meetings
        = st.meetings ++ tools.filterMap (meetingRecOf now)
    ∧ (uiCategorize now st tools).specifications
        = st.specifications ++ tools.filterMap (specRecOf now) := by
  induction tools generalizing st with
  | nil => simp [uiCategorize]
  | cons hd tl ih =>
    have hstep := uiRecordStep_fields now st hd
    have ihs := ih (uiRecordStep now st hd)
    have hfold : uiCategorize now st (hd :: tl)
        = uiCategorize now (uiRecordStep now st hd) tl := rfl
    rw [hfold]
    refine ⟨?_, ?_, ?_, ?_⟩
    · rw [ihs.1, hstep.1, List.filterMap_cons]
      cases h : todoRecOf now hd <;> simp [h]
    · rw [ihs.2.1, hstep.2.1, List.filterMap_cons]
      cases h : contactRecOf now hd <;> simp [h]
    · rw [ihs.2.2.1, hstep.2.2.1, List.filterMap_cons]
      cases h : meetingRecOf now hd <;> simp [h]
    · rw [ihs.2.2.2, hstep.2.2.2, List.filterMap_cons]
      cases h : specRecOf now hd <;> simp [h]

end AgentTemplate
